import Mathlib

/-!
# Verification of the vanilla-pipe (macOS) broker

Shallow embedding of `src/pipe/macos/main.c` (the broker process: argument
parsing, startup, the datagram event loop and its command dispatch) together
with the Wi-Fi capability interface declared in `src/pipe/macos/wifi.h`.

The broker's observable behaviour is modelled as pure functions producing,
for each received datagram, the list of frames sent back to the sender and
the list of Wi-Fi capability calls performed, plus the value of the
`running` flag.  Logging (`nlprint`) has no protocol-visible effect and is
not modelled.
-/

namespace VanillaPipe

/-- Modelled from the spec: the control-code byte values live in `pipe/def.h`,
which is not part of `src/`.  The spec fixes `SYNC = 0x01` (§8 scenario) and
requires the six codes to be distinct fixed byte values; the remaining
concrete values below are representative, and no theorem depends on anything
but their distinctness and `SYNC = 0x01`. -/
def VANILLA_PIPE_CC_SYNC : Nat := 0x01

/-- Modelled from the spec: see `VANILLA_PIPE_CC_SYNC`. -/
def VANILLA_PIPE_CC_CONNECT : Nat := 0x02

/-- Modelled from the spec: see `VANILLA_PIPE_CC_SYNC`. -/
def VANILLA_PIPE_CC_STATUS : Nat := 0x03

/-- Modelled from the spec: see `VANILLA_PIPE_CC_SYNC`. -/
def VANILLA_PIPE_CC_UNBIND : Nat := 0x04

/-- Modelled from the spec: see `VANILLA_PIPE_CC_SYNC`. -/
def VANILLA_PIPE_CC_QUIT : Nat := 0x05

/-- Modelled from the spec: see `VANILLA_PIPE_CC_SYNC`. -/
def VANILLA_PIPE_CC_BIND_ACK : Nat := 0x06

/-- Modelled from the spec: the canonical success result code (`VANILLA_SUCCESS`
in the repository's shared headers, absent from `src/`).  Only its
distinctness from the generic-error code is relied upon. -/
def VANILLA_SUCCESS : Nat := 0

/-- Modelled from the spec: the canonical generic-error result code
(`VANILLA_ERR_GENERIC`, absent from `src/`). -/
def VANILLA_ERR_GENERIC : Nat := 1

/-- Modelled from the spec: `sizeof(vanilla_pipe_command_t)` — the fixed size
of a command frame.  The struct is declared in `pipe/def.h`, absent from
`src/`; per the spec it is byte 0 (control code) plus the largest payload
(the `CONNECT` payload: a fixed-width SSID, a 6-byte BSSID and a fixed-width
pre-shared key).  The exact field widths are not in `src/`; no theorem relies
on anything but `1 < commandFrameSize`. -/
def commandFrameSize : Nat := 1 + 32 + 6 + 64

/-- `htonl` applied to a 32-bit value and then laid out in memory, i.e. the
four bytes of the value in network (big-endian) order. -/
def htonl (x : Nat) : List Nat :=
  [x / 2 ^ 24 % 256, x / 2 ^ 16 % 256, x / 2 ^ 8 % 256, x % 256]

/-- The Wi-Fi capability operations of `src/pipe/macos/wifi.h` that the broker
invokes (an external collaborator; calls are recorded, not interpreted). -/
inductive WifiCall where
  | wifi_init
  | wifi_cleanup
  | wifi_scan_for_wiiu
  | wifi_associate
  | wifi_disassociate
deriving DecidableEq, Repr

/-- A datagram sent by the broker: destination peer address and the bytes of
the frame that the broker defined (for a `STATUS` response the code sends the
whole `vanilla_pipe_command_t` struct; the bytes past the status payload are
indeterminate padding and are not modelled). -/
structure SentFrame where
  dest : Nat
  bytes : List Nat
deriving DecidableEq, Repr

/-- Result of one pass through the body of the event loop: the value of the
`running` flag afterwards, the frames sent, and the Wi-Fi calls performed. -/
structure StepResult where
  running : Bool
  sent : List SentFrame
  wifi : List WifiCall
deriving DecidableEq, Repr

/-- The `switch (cmd.control_code)` dispatch in `main`
(`src/pipe/macos/main.c:158-205`), entered with `running = 1`.
`scanResult` is the value `wifi_scan_for_wiiu` returns if it is called this
iteration (the capability is external). -/
def dispatchCommand (sender : Nat) (cc : Nat) (scanResult : Int) : StepResult :=
  if cc = VANILLA_PIPE_CC_SYNC then
    let status : Nat := if scanResult = 0 then VANILLA_SUCCESS else VANILLA_ERR_GENERIC
    { running := true
      sent := [⟨sender, VANILLA_PIPE_CC_STATUS :: htonl status⟩]
      wifi := [WifiCall.wifi_scan_for_wiiu] }
  else if cc = VANILLA_PIPE_CC_CONNECT then
    { running := true
      sent := [⟨sender, [VANILLA_PIPE_CC_BIND_ACK]⟩]
      wifi := [] }
  else if cc = VANILLA_PIPE_CC_UNBIND then
    { running := true, sent := [], wifi := [WifiCall.wifi_disassociate] }
  else if cc = VANILLA_PIPE_CC_QUIT then
    { running := false, sent := [], wifi := [] }
  else
    { running := true, sent := [], wifi := [] }

/-- One iteration of the event loop body (`src/pipe/macos/main.c:142-206`) on
a successful `recvfrom`: `data` is the received byte sequence (so
`recv_len = data.length`).  The code checks only `recv_len <= 0`; when at
least one byte arrived, `cmd.control_code` — the first byte of the struct —
is defined and the switch dispatches on it. -/
def loopIteration (sender : Nat) (data : List Nat) (scanResult : Int) : StepResult :=
  if data.length = 0 then { running := true, sent := [], wifi := [] }
  else dispatchCommand sender (data.headD 0) scanResult

/-- The control codes with a `case` arm in the dispatch switch. -/
def isRecognizedCC (cc : Nat) : Bool :=
  cc = VANILLA_PIPE_CC_SYNC ∨ cc = VANILLA_PIPE_CC_CONNECT ∨
  cc = VANILLA_PIPE_CC_UNBIND ∨ cc = VANILLA_PIPE_CC_QUIT

/-- What the blocking `recvfrom` of one loop iteration produces, from the
loop's point of view.  `timeout` covers `recv_len <= 0` (the 1-second socket
timeout or a receive error); `sig` is asynchronous delivery of `SIGINT` or
`SIGTERM`, whose handler sets `running = 0` while `recvfrom` returns with no
data.  A `datagram` carries the sender's address, the received bytes, and
the value `wifi_scan_for_wiiu` would return if called this iteration. -/
inductive Event where
  | timeout
  | sig (signum : Nat)
  | datagram (sender : Nat) (data : List Nat) (scanResult : Int)
deriving DecidableEq, Repr

/-- An observable action of the broker process, in program order. -/
inductive Action where
  | send (f : SentFrame)
  | wifi (c : WifiCall)
  | closeSocket
deriving DecidableEq, Repr

/-- The effect of one receive outcome on the loop: the actions performed and
the value of `running` afterwards.  A timeout (`recv_len <= 0`) just
continues; a termination signal leaves `running = 0`; a datagram goes
through the loop body `loopIteration`, whose sends and Wi-Fi calls are
performed in program order. -/
def eventStep : Event → List Action × Bool
  | Event.timeout => ([], true)
  | Event.sig _ => ([], false)
  | Event.datagram sender data scanResult =>
      let r := loopIteration sender data scanResult
      (r.sent.map Action.send ++ r.wifi.map Action.wifi, r.running)

/-- An event whose processing clears the `running` flag: a termination
signal, or a datagram dispatched to the `QUIT` arm. -/
def setsShutdown (ev : Event) : Bool := !(eventStep ev).2

/-- The `while (running)` event loop (`src/pipe/macos/main.c:142-206`) run
over a finite schedule of receive outcomes: returns the actions performed
and the final value of `running`.  When `running` is already false the loop
body is never entered and no further event is consumed; when the schedule is
exhausted while still running, the loop is blocked in `recvfrom` waiting for
more input. -/
def runLoop : Bool → List Event → List Action × Bool
  | false, _ => ([], false)
  | true, [] => ([], true)
  | true, ev :: evs =>
      if (eventStep ev).2 then
        ((eventStep ev).1 ++ (runLoop true evs).1, (runLoop true evs).2)
      else
        ((eventStep ev).1, false)

/-- The tail of `main` after the loop (`src/pipe/macos/main.c:208-213`): once
the loop exits, the socket is closed, then `wifi_cleanup` runs, then the
process returns 0.  Returns `none` when the schedule leaves the loop still
blocked (the process has not exited). -/
def runBroker (events : List Event) : Option (List Action × Nat) :=
  match runLoop true events with
  | (acts, false) => some (acts ++ [Action.closeSocket, Action.wifi WifiCall.wifi_cleanup], 0)
  | (_, true) => none

/-- Result of `parseArgs` below: either a help request or the flag values
after the scan. -/
inductive ParsedArgs where
  | help
  | proceed (udp_mode : Bool) (local_mode : Bool) (wireless_interface : Option String)
deriving DecidableEq, Repr

/-- The argument-scanning loop of `main` (`src/pipe/macos/main.c:69-80`):
`-udp` and `-local` set their flags, `-h`/`--help` prints usage and returns
immediately, and any other argument becomes the wireless interface. -/
def parseArgs : List String → Bool → Bool → Option String → ParsedArgs
  | [], udp_mode, local_mode, wireless_interface =>
      ParsedArgs.proceed udp_mode local_mode wireless_interface
  | a :: rest, udp_mode, local_mode, wireless_interface =>
      if a = "-udp" then parseArgs rest true local_mode wireless_interface
      else if a = "-local" then parseArgs rest udp_mode true wireless_interface
      else if a = "-h" ∨ a = "--help" then ParsedArgs.help
      else parseArgs rest udp_mode local_mode (some a)

/-- Outcome of the whole process: an exit with a code and the trace of
observable actions, or a process still blocked in the event loop. -/
inductive MainResult where
  | exited (code : Nat) (trace : List Action)
  | looping (trace : List Action)
deriving DecidableEq, Repr

/-- `main` (`src/pipe/macos/main.c:52-214`), over the arguments after the
program name.  `wifiInitResult` is what `wifi_init` returns if reached;
`bindResult` is what `bind` returns if reached (negative means failure);
`events` is the schedule of receive outcomes for the loop.  Argument check:
`argc < 2` means no arguments; after the scan, `udp_mode == local_mode`
(neither or both transports) is rejected.  On `wifi_init` failure the
process exits 1; on `bind` failure it calls `wifi_cleanup` and exits 1;
otherwise it enters the event loop and, when the loop exits, closes the
socket, cleans up Wi-Fi and returns 0. -/
def mainBroker (args : List String) (wifiInitResult : Int) (bindResult : Int)
    (events : List Event) : MainResult :=
  if args.length = 0 then MainResult.exited 1 []
  else
    match parseArgs args false false none with
    | ParsedArgs.help => MainResult.exited 0 []
    | ParsedArgs.proceed udp_mode local_mode _ =>
      if udp_mode = local_mode then MainResult.exited 1 []
      else if wifiInitResult ≠ 0 then MainResult.exited 1 [Action.wifi WifiCall.wifi_init]
      else if bindResult < 0 then
        MainResult.exited 1 [Action.wifi WifiCall.wifi_init, Action.wifi WifiCall.wifi_cleanup]
      else
        match runLoop true events with
        | (acts, false) =>
            MainResult.exited 0
              (Action.wifi WifiCall.wifi_init :: acts ++
                [Action.closeSocket, Action.wifi WifiCall.wifi_cleanup])
        | (acts, true) => MainResult.looping (Action.wifi WifiCall.wifi_init :: acts)

/-- Modelled from the spec: the control codes that map to a defined
state-machine transition in the §4.3 table (`SYNC`, `CONNECT`, `UNBIND`,
`QUIT`) — exactly the codes with a `case` arm in the dispatch switch. -/
def hasDefinedTransition (cc : Nat) : Bool := isRecognizedCC cc

/-- Modelled from the spec: the session states of the Broker State Machine
(§4.3).  `src/` holds no session-state variable — the state machine is the
spec's abstraction of the broker — so the state set and its transition
function are taken from the spec's transition table. -/
inductive SessionState where
  | Idle
  | Syncing
  | Connecting
  | Bound
  | ShuttingDown
deriving DecidableEq, Repr

/-- Modelled from the spec: the transition table of §4.3 — `SYNC` leaves the
state unchanged, `CONNECT` enters `Connecting`, `UNBIND` returns to `Idle`,
`QUIT` enters `ShuttingDown`, and an unrecognized code changes nothing. -/
def sessionTransition (s : SessionState) (cc : Nat) : SessionState :=
  if cc = VANILLA_PIPE_CC_SYNC then s
  else if cc = VANILLA_PIPE_CC_CONNECT then SessionState.Connecting
  else if cc = VANILLA_PIPE_CC_UNBIND then SessionState.Idle
  else if cc = VANILLA_PIPE_CC_QUIT then SessionState.ShuttingDown
  else s

/-! ## Helper lemmas -/

/-- The loop body clears `running` exactly when a non-empty datagram's first
byte is the `QUIT` control code. -/
lemma loopIteration_running_false_iff (sender : Nat) (data : List Nat) (scanResult : Int) :
    ((loopIteration sender data scanResult).running = false ↔
      data ≠ [] ∧ data.headD 0 = VANILLA_PIPE_CC_QUIT) := by
  unfold loopIteration dispatchCommand
  rcases data with _ | ⟨b, rest⟩
  · simp
  · simp only [List.length_cons, List.headD_cons, ne_eq, reduceCtorEq, not_false_eq_true,
      true_and]
    split_ifs with h1 h2 h3 h4 <;>
      simp_all [VANILLA_PIPE_CC_SYNC, VANILLA_PIPE_CC_CONNECT, VANILLA_PIPE_CC_UNBIND,
        VANILLA_PIPE_CC_QUIT]

/-- The value of `running` after the loop body does not depend on the sender
address. -/
lemma loopIteration_running_sender (a b : Nat) (data : List Nat) (scanResult : Int) :
    (loopIteration a data scanResult).running = (loopIteration b data scanResult).running := by
  unfold loopIteration dispatchCommand
  split_ifs <;> rfl

/-- Once the loop has stopped, later scheduled events are never consumed. -/
lemma runLoop_stopped_append (evs post : List Event) (h : (runLoop true evs).2 = false) :
    runLoop true (evs ++ post) = runLoop true evs := by
  induction evs with
  | nil => simp [runLoop] at h
  | cons ev evs ih =>
    by_cases hstep : (eventStep ev).2
    · simp only [runLoop, hstep, if_true] at h ⊢
      simp only [List.append_eq]
      rw [ih h]
    · simp [runLoop, hstep]

/-- Appending an event that clears the `running` flag guarantees the loop
stops. -/
lemma runLoop_shutdown_stops (pre : List Event) (ev : Event) (h : setsShutdown ev = true) :
    (runLoop true (pre ++ [ev])).2 = false := by
  induction pre with
  | nil =>
    simp only [setsShutdown, Bool.not_eq_true'] at h
    simp [runLoop, h]
  | cons e pre ih =>
    by_cases hstep : (eventStep e).2
    · simpa [runLoop, hstep] using ih
    · simp [runLoop, hstep]

/-- The loop stops only when some scheduled event sets the shutdown flag. -/
lemma runLoop_stops_only_on_shutdown (evs : List Event) (h : (runLoop true evs).2 = false) :
    ∃ ev ∈ evs, setsShutdown ev = true := by
  induction evs with
  | nil => simp [runLoop] at h
  | cons ev evs ih =>
    by_cases hstep : (eventStep ev).2
    · simp only [runLoop, hstep, if_true] at h
      obtain ⟨e, he, hs⟩ := ih h
      exact ⟨e, List.mem_cons_of_mem _ he, hs⟩
    · exact ⟨ev, List.mem_cons_self _ _, by simp [setsShutdown, hstep]⟩

/-- The event loop never performs a `wifi_associate` call. -/
lemma wifi_associate_not_in_runLoop (b : Bool) (evs : List Event) :
    Action.wifi WifiCall.wifi_associate ∉ (runLoop b evs).1 := by
  induction evs with
  | nil => cases b <;> simp [runLoop]
  | cons ev evs ih =>
    cases b with
    | false => simp [runLoop]
    | true =>
      have hev : Action.wifi WifiCall.wifi_associate ∉ (eventStep ev).1 := by
        rcases ev with _ | n | ⟨sender, data, scanResult⟩
        · simp [eventStep]
        · simp [eventStep]
        · simp only [eventStep, List.mem_append, List.mem_map]
          rintro (⟨f, _, hf⟩ | ⟨c, hc, hcf⟩)
          · exact absurd hf (by simp)
          · have : c = WifiCall.wifi_associate := by
              cases hcf
              rfl
            subst this
            revert hc
            unfold loopIteration dispatchCommand
            split_ifs <;> simp
      cases hstep : (eventStep ev).2 <;> simp_all [runLoop]

/-- If any argument is `-h` or `--help`, the scan returns the help request,
whatever the accumulated flags are. -/
lemma parseArgs_help (args : List String) (u l : Bool) (io : Option String)
    (h : "-h" ∈ args ∨ "--help" ∈ args) :
    parseArgs args u l io = ParsedArgs.help := by
  induction args generalizing u l io with
  | nil => simp at h
  | cons a rest ih =>
    unfold parseArgs
    by_cases hu : a = "-udp"
    · subst hu
      simp only [if_true]
      refine ih _ _ _ ?_
      rcases h with h | h <;> simp only [List.mem_cons] at h <;>
        rcases h with h | h <;> first | (exact absurd h.symm (by decide)) | simp [h]
    · by_cases hl : a = "-local"
      · subst hl
        simp only [hu, if_false, if_true]
        refine ih _ _ _ ?_
        rcases h with h | h <;> simp only [List.mem_cons] at h <;>
          rcases h with h | h <;> first | (exact absurd h.symm (by decide)) | simp [h]
      · by_cases hh : a = "-h" ∨ a = "--help"
        · simp [hu, hl, hh]
        · simp only [hu, hl, hh, if_false]
          refine ih _ _ _ ?_
          push_neg at hh
          rcases h with h | h <;> simp only [List.mem_cons] at h <;> rcases h with h | h
          · exact absurd h.symm hh.1
          · simp [h]
          · exact absurd h.symm hh.2
          · simp [h]

/-- With no help argument, the scan accumulates exactly whether `-udp` and
`-local` occur among the arguments. -/
lemma parseArgs_no_help (args : List String) (u l : Bool) (io : Option String)
    (h1 : "-h" ∉ args) (h2 : "--help" ∉ args) :
    ∃ w, parseArgs args u l io =
      ParsedArgs.proceed (u || decide ("-udp" ∈ args)) (l || decide ("-local" ∈ args)) w := by
  induction args generalizing u l io with
  | nil => exact ⟨io, by simp [parseArgs]⟩
  | cons a rest ih =>
    simp only [List.mem_cons, not_or] at h1 h2
    unfold parseArgs
    by_cases hu : a = "-udp"
    · subst hu
      obtain ⟨w, hw⟩ := ih true l io h1.2 h2.2
      exact ⟨w, by simpa using hw⟩
    · by_cases hl : a = "-local"
      · subst hl
        obtain ⟨w, hw⟩ := ih u true io h1.2 h2.2
        refine ⟨w, ?_⟩
        simp only [hu, if_false, if_true]
        simpa [Ne.symm hu] using hw
      · have hh : ¬(a = "-h" ∨ a = "--help") := by
          push_neg
          exact ⟨fun e => h1.1 e.symm, fun e => h2.1 e.symm⟩
        obtain ⟨w, hw⟩ := ih u l (some a) h1.2 h2.2
        refine ⟨w, ?_⟩
        simp only [hu, hl, hh, if_false]
        simpa [Ne.symm hu, Ne.symm hl] using hw

/-! ## Claim theorems -/

/-- C1: a `SYNC` command frame received in any non-terminal session state
makes the broker send exactly one `STATUS` response frame back to the frame's
sender, whose 32-bit result code is laid out in network byte order (`htonl`)
and is the canonical success code when the Wi-Fi scan returned 0 and the
canonical generic-error code otherwise; the session state is unchanged. -/
theorem sync_sends_one_status (sender : Nat) (data : List Nat) (scanResult : Int)
    (s : SessionState)
    (hlen : data.length = commandFrameSize)
    (hcc : data.headD 0 = VANILLA_PIPE_CC_SYNC)
    (hs : s ≠ SessionState.ShuttingDown) :
    loopIteration sender data scanResult =
      { running := true
        sent := [⟨sender, VANILLA_PIPE_CC_STATUS ::
          htonl (if scanResult = 0 then VANILLA_SUCCESS else VANILLA_ERR_GENERIC)⟩]
        wifi := [WifiCall.wifi_scan_for_wiiu] } ∧
    sessionTransition s (data.headD 0) = s := by
  have hne : ¬ data.length = 0 := by simp [hlen, commandFrameSize]
  constructor
  · unfold loopIteration dispatchCommand
    rw [if_neg hne, hcc]
    simp
  · unfold sessionTransition
    rw [hcc]
    simp

/-- C1 witness: a full-size `SYNC` frame from sender 7 with a successful scan
yields one `STATUS` success response and leaves the `Idle` state unchanged. -/
theorem sync_sends_one_status_witness :
    loopIteration 7 (VANILLA_PIPE_CC_SYNC :: List.replicate 102 0) 0 =
      { running := true
        sent := [⟨7, VANILLA_PIPE_CC_STATUS ::
          htonl (if (0 : Int) = 0 then VANILLA_SUCCESS else VANILLA_ERR_GENERIC)⟩]
        wifi := [WifiCall.wifi_scan_for_wiiu] } ∧
    sessionTransition SessionState.Idle
      ((VANILLA_PIPE_CC_SYNC :: List.replicate 102 0).headD 0) = SessionState.Idle :=
  sync_sends_one_status 7 (VANILLA_PIPE_CC_SYNC :: List.replicate 102 0) 0
    SessionState.Idle (by decide) (by decide) (by decide)

/-- C3: a `CONNECT` command frame received in any session state — including
while already `Connecting` — makes the broker send exactly one single-byte
`BIND_ACK` response to the sender and (re-)enter `Connecting`; it is never
rejected. -/
theorem connect_sends_bind_ack (sender : Nat) (data : List Nat) (scanResult : Int)
    (s : SessionState)
    (hlen : data.length = commandFrameSize)
    (hcc : data.headD 0 = VANILLA_PIPE_CC_CONNECT) :
    loopIteration sender data scanResult =
      { running := true
        sent := [⟨sender, [VANILLA_PIPE_CC_BIND_ACK]⟩]
        wifi := [] } ∧
    sessionTransition s (data.headD 0) = SessionState.Connecting := by
  have hne : ¬ data.length = 0 := by simp [hlen, commandFrameSize]
  constructor
  · unfold loopIteration dispatchCommand
    rw [if_neg hne, hcc]
    simp [VANILLA_PIPE_CC_CONNECT, VANILLA_PIPE_CC_SYNC]
  · unfold sessionTransition
    rw [hcc]
    simp [VANILLA_PIPE_CC_CONNECT, VANILLA_PIPE_CC_SYNC]

/-- C3 witness: a repeated `CONNECT` while already `Connecting` reissues one
single-byte `BIND_ACK` and re-enters `Connecting`. -/
theorem connect_sends_bind_ack_witness :
    loopIteration 4 (VANILLA_PIPE_CC_CONNECT :: List.replicate 102 0) 0 =
      { running := true
        sent := [⟨4, [VANILLA_PIPE_CC_BIND_ACK]⟩]
        wifi := [] } ∧
    sessionTransition SessionState.Connecting
      ((VANILLA_PIPE_CC_CONNECT :: List.replicate 102 0).headD 0) =
        SessionState.Connecting :=
  connect_sends_bind_ack 4 (VANILLA_PIPE_CC_CONNECT :: List.replicate 102 0) 0
    SessionState.Connecting (by decide) (by decide)

/-- C4: an `UNBIND` command frame makes the broker invoke `wifi_disassociate`
exactly once, return the session state to `Idle`, and send no response. -/
theorem unbind_disassociates_once (sender : Nat) (data : List Nat) (scanResult : Int)
    (s : SessionState)
    (hlen : data.length = commandFrameSize)
    (hcc : data.headD 0 = VANILLA_PIPE_CC_UNBIND) :
    loopIteration sender data scanResult =
      { running := true
        sent := []
        wifi := [WifiCall.wifi_disassociate] } ∧
    sessionTransition s (data.headD 0) = SessionState.Idle := by
  have hne : ¬ data.length = 0 := by simp [hlen, commandFrameSize]
  constructor
  · unfold loopIteration dispatchCommand
    rw [if_neg hne, hcc]
    simp [VANILLA_PIPE_CC_UNBIND, VANILLA_PIPE_CC_SYNC, VANILLA_PIPE_CC_CONNECT]
  · unfold sessionTransition
    rw [hcc]
    simp [VANILLA_PIPE_CC_UNBIND, VANILLA_PIPE_CC_SYNC, VANILLA_PIPE_CC_CONNECT]

/-- C4 witness: an `UNBIND` frame from sender 3 in state `Bound` calls
`wifi_disassociate` once, sends nothing, and returns the state to `Idle`. -/
theorem unbind_disassociates_once_witness :
    loopIteration 3 (VANILLA_PIPE_CC_UNBIND :: List.replicate 102 0) 0 =
      { running := true
        sent := []
        wifi := [WifiCall.wifi_disassociate] } ∧
    sessionTransition SessionState.Bound
      ((VANILLA_PIPE_CC_UNBIND :: List.replicate 102 0).headD 0) = SessionState.Idle :=
  unbind_disassociates_once 3 (VANILLA_PIPE_CC_UNBIND :: List.replicate 102 0) 0
    SessionState.Bound (by decide) (by decide)

/-- C6: a received frame whose control code has no `case` arm is inert — no
response, no Wi-Fi call, no state change, `running` stays set — and the loop
can only ever stop because some scheduled event explicitly sets the shutdown
flag (a termination signal or a `QUIT` dispatch), never because of a
malformed or unrecognized frame. -/
theorem unrecognized_frame_inert (sender : Nat) (data : List Nat) (scanResult : Int)
    (h1 : 0 < data.length)
    (hcc : isRecognizedCC (data.headD 0) = false) :
    loopIteration sender data scanResult = { running := true, sent := [], wifi := [] } ∧
    (∀ s, sessionTransition s (data.headD 0) = s) ∧
    (∀ evs : List Event, (runLoop true evs).2 = false →
      ∃ ev ∈ evs, setsShutdown ev = true) := by
  have hne : ¬ data.length = 0 := Nat.pos_iff_ne_zero.mp h1
  simp only [isRecognizedCC, decide_eq_false_iff_not, not_or] at hcc
  obtain ⟨hc1, hc2, hc3, hc4⟩ := hcc
  refine ⟨?_, ?_, fun evs h => runLoop_stops_only_on_shutdown evs h⟩
  · unfold loopIteration dispatchCommand
    rw [if_neg hne]
    split_ifs
    rfl
  · intro s
    unfold sessionTransition
    split_ifs
    rfl

/-- C6 witness: control code `0xFF` is inert, and a loop run that stops does
contain a shutdown trigger. -/
theorem unrecognized_frame_inert_witness :
    loopIteration 2 [255] 0 = { running := true, sent := [], wifi := [] } ∧
    (∀ s, sessionTransition s (([255] : List Nat).headD 0) = s) ∧
    (∀ evs : List Event, (runLoop true evs).2 = false →
      ∃ ev ∈ evs, setsShutdown ev = true) :=
  unrecognized_frame_inert 2 [255] 0 (by decide) (by decide)

/-- C9: processing `CONNECT` performs no Wi-Fi capability call and ignores
the SSID/BSSID/PSK payload entirely (any payload yields exactly the same
single `BIND_ACK` and nothing else), and `wifi_associate` is never invoked by
the broker on any input — neither by any loop-body dispatch nor anywhere in
any run of the event loop. -/
theorem connect_invokes_no_wifi (sender : Nat) (data : List Nat) (scanResult : Int) :
    WifiCall.wifi_associate ∉ (loopIteration sender data scanResult).wifi ∧
    (∀ payload : List Nat,
      loopIteration sender (VANILLA_PIPE_CC_CONNECT :: payload) scanResult =
        { running := true
          sent := [⟨sender, [VANILLA_PIPE_CC_BIND_ACK]⟩]
          wifi := [] }) ∧
    (∀ (b : Bool) (evs : List Event),
      Action.wifi WifiCall.wifi_associate ∉ (runLoop b evs).1) := by
  refine ⟨?_, ?_, fun b evs => wifi_associate_not_in_runLoop b evs⟩
  · unfold loopIteration dispatchCommand
    split_ifs <;> simp
  · intro payload
    simp [loopIteration, dispatchCommand, VANILLA_PIPE_CC_CONNECT, VANILLA_PIPE_CC_SYNC]

/-- C9 witness: at a concrete `CONNECT` frame with a non-trivial payload the
only effect is the single-byte `BIND_ACK`, and no `wifi_associate` occurs. -/
theorem connect_invokes_no_wifi_witness :
    WifiCall.wifi_associate ∉ (loopIteration 5 [VANILLA_PIPE_CC_CONNECT, 9, 9, 9] 0).wifi ∧
    loopIteration 5 (VANILLA_PIPE_CC_CONNECT :: [9, 9, 9]) 0 =
      { running := true
        sent := [⟨5, [VANILLA_PIPE_CC_BIND_ACK]⟩]
        wifi := [] } :=
  ⟨(connect_invokes_no_wifi 5 [VANILLA_PIPE_CC_CONNECT, 9, 9, 9] 0).1,
   (connect_invokes_no_wifi 5 [VANILLA_PIPE_CC_CONNECT, 9, 9, 9] 0).2.1 [9, 9, 9]⟩

/-- C10: a received frame bearing the `STATUS` or `BIND_ACK` control code
(wire values that only appear in responses) falls through to the `default`
arm: it is handled exactly like the unrecognized code `0xFF` with the same
payload — no response, no Wi-Fi call, no state change, and the loop keeps
running. -/
theorem status_bind_ack_inert (sender : Nat) (data : List Nat) (scanResult : Int)
    (h1 : 0 < data.length)
    (hcc : data.headD 0 = VANILLA_PIPE_CC_STATUS ∨ data.headD 0 = VANILLA_PIPE_CC_BIND_ACK) :
    loopIteration sender data scanResult = { running := true, sent := [], wifi := [] } ∧
    loopIteration sender data scanResult = loopIteration sender (255 :: data.tail) scanResult ∧
    (∀ s, sessionTransition s (data.headD 0) = s) := by
  have hne : ¬ data.length = 0 := Nat.pos_iff_ne_zero.mp h1
  have hinert : loopIteration sender data scanResult =
      { running := true, sent := [], wifi := [] } := by
    unfold loopIteration dispatchCommand
    rw [if_neg hne]
    rcases hcc with hcc | hcc <;> rw [hcc] <;>
      simp [VANILLA_PIPE_CC_STATUS, VANILLA_PIPE_CC_BIND_ACK, VANILLA_PIPE_CC_SYNC,
        VANILLA_PIPE_CC_CONNECT, VANILLA_PIPE_CC_UNBIND, VANILLA_PIPE_CC_QUIT]
  refine ⟨hinert, ?_, ?_⟩
  · rw [hinert]
    simp [loopIteration, dispatchCommand, VANILLA_PIPE_CC_SYNC, VANILLA_PIPE_CC_CONNECT,
      VANILLA_PIPE_CC_UNBIND, VANILLA_PIPE_CC_QUIT]
  · intro s
    unfold sessionTransition
    rcases hcc with hcc | hcc <;> rw [hcc] <;>
      simp [VANILLA_PIPE_CC_STATUS, VANILLA_PIPE_CC_BIND_ACK, VANILLA_PIPE_CC_SYNC,
        VANILLA_PIPE_CC_CONNECT, VANILLA_PIPE_CC_UNBIND, VANILLA_PIPE_CC_QUIT]

/-- C10 witness: an inbound `STATUS` frame is inert and coincides with the
handling of the unrecognized code `0xFF`. -/
theorem status_bind_ack_inert_witness :
    loopIteration 1 [VANILLA_PIPE_CC_STATUS, 0, 0, 0, 0] 0 =
      { running := true, sent := [], wifi := [] } ∧
    loopIteration 1 [VANILLA_PIPE_CC_STATUS, 0, 0, 0, 0] 0 =
      loopIteration 1 (255 :: ([VANILLA_PIPE_CC_STATUS, 0, 0, 0, 0] : List Nat).tail) 0 :=
  ⟨(status_bind_ack_inert 1 [VANILLA_PIPE_CC_STATUS, 0, 0, 0, 0] 0 (by decide)
      (Or.inl (by decide))).1,
   (status_bind_ack_inert 1 [VANILLA_PIPE_CC_STATUS, 0, 0, 0, 0] 0 (by decide)
      (Or.inl (by decide))).2.1⟩

/-- C2 counterexample: a 1-byte datagram — positive length, strictly shorter
than the fixed command-frame size — bearing the `SYNC` control code is not
rejected as a decode error: the broker performs the Wi-Fi scan and sends a
response, because the loop only checks `recv_len <= 0` before dispatching on
the first byte. -/
theorem truncated_sync_dispatched :
    0 < ([VANILLA_PIPE_CC_SYNC] : List Nat).length ∧
    ([VANILLA_PIPE_CC_SYNC] : List Nat).length < commandFrameSize ∧
    (loopIteration 0 [VANILLA_PIPE_CC_SYNC] 0).sent ≠ [] ∧
    (loopIteration 0 [VANILLA_PIPE_CC_SYNC] 0).wifi = [WifiCall.wifi_scan_for_wiiu] := by
  decide

/-- C2 as amended: a received byte sequence of positive length shorter than
the fixed command-frame size is not treated as a decode error; it is
dispatched purely on its first byte.  Only when that first byte has no
`case` arm does the broker send no response, perform no Wi-Fi call and
change no state; in every case the broker does not crash and the loop
continues except on a `QUIT` first byte. -/
theorem short_input_dispatched_on_first_byte (sender : Nat) (data : List Nat)
    (scanResult : Int)
    (h1 : 0 < data.length) (h2 : data.length < commandFrameSize) :
    loopIteration sender data scanResult = dispatchCommand sender (data.headD 0) scanResult ∧
    (isRecognizedCC (data.headD 0) = false →
      loopIteration sender data scanResult = { running := true, sent := [], wifi := [] }) ∧
    ((loopIteration sender data scanResult).running = false ↔
      data.headD 0 = VANILLA_PIPE_CC_QUIT) := by
  have hne : ¬ data.length = 0 := Nat.pos_iff_ne_zero.mp h1
  have hdne : data ≠ [] := List.length_pos.mp h1
  refine ⟨?_, ?_, ?_⟩
  · unfold loopIteration
    rw [if_neg hne]
  · intro hcc
    simp only [isRecognizedCC, decide_eq_false_iff_not, not_or] at hcc
    obtain ⟨hc1, hc2, hc3, hc4⟩ := hcc
    unfold loopIteration dispatchCommand
    rw [if_neg hne]
    split_ifs
    rfl
  · rw [loopIteration_running_false_iff]
    simp [hdne]

/-- C2 amended witness: a 1-byte unrecognized datagram is dispatched on its
first byte and is inert. -/
theorem short_input_dispatched_on_first_byte_witness :
    loopIteration 6 [255] 0 = dispatchCommand 6 (([255] : List Nat).headD 0) 0 ∧
    loopIteration 6 [255] 0 = { running := true, sent := [], wifi := [] } :=
  ⟨(short_input_dispatched_on_first_byte 6 [255] 0 (by decide) (by decide)).1,
   (short_input_dispatched_on_first_byte 6 [255] 0 (by decide) (by decide)).2.1 (by decide)⟩

/-- C8 counterexample: `UNBIND` maps to a defined state-machine transition,
yet the broker emits no response frame for it — refuting the claim that a
response is emitted for every frame that maps to a defined transition when
that is quantified over `UNBIND` and `QUIT` as well. -/
theorem unbind_defined_transition_no_response :
    hasDefinedTransition VANILLA_PIPE_CC_UNBIND = true ∧
    (loopIteration 3 (VANILLA_PIPE_CC_UNBIND :: List.replicate 102 0) 0).sent = [] := by
  constructor
  · decide
  · decide

/-- C8 as amended: a response is emitted to the sender for every frame whose
defined transition defines a response (`SYNC` and `CONNECT`); the defined
transitions `UNBIND` and `QUIT` emit no response frame; and frames with no
defined transition produce no response but do not terminate the loop. -/
theorem responses_for_defined_transitions (sender : Nat) (data : List Nat)
    (scanResult : Int)
    (h1 : 0 < data.length) :
    ((data.headD 0 = VANILLA_PIPE_CC_SYNC ∨ data.headD 0 = VANILLA_PIPE_CC_CONNECT) →
      ∃ b, (loopIteration sender data scanResult).sent = [⟨sender, b⟩]) ∧
    ((data.headD 0 = VANILLA_PIPE_CC_UNBIND ∨ data.headD 0 = VANILLA_PIPE_CC_QUIT) →
      (loopIteration sender data scanResult).sent = []) ∧
    (hasDefinedTransition (data.headD 0) = false →
      (loopIteration sender data scanResult).sent = [] ∧
      (loopIteration sender data scanResult).running = true) := by
  have hne : ¬ data.length = 0 := Nat.pos_iff_ne_zero.mp h1
  refine ⟨?_, ?_, ?_⟩
  · rintro (hcc | hcc) <;>
      · unfold loopIteration dispatchCommand
        rw [if_neg hne, hcc]
        simp [VANILLA_PIPE_CC_SYNC, VANILLA_PIPE_CC_CONNECT]
  · rintro (hcc | hcc) <;>
      · unfold loopIteration dispatchCommand
        rw [if_neg hne, hcc]
        simp [VANILLA_PIPE_CC_SYNC, VANILLA_PIPE_CC_CONNECT, VANILLA_PIPE_CC_UNBIND,
          VANILLA_PIPE_CC_QUIT]
  · intro hcc
    simp only [hasDefinedTransition, isRecognizedCC, decide_eq_false_iff_not,
      not_or] at hcc
    obtain ⟨hc1, hc2, hc3, hc4⟩ := hcc
    unfold loopIteration dispatchCommand
    rw [if_neg hne]
    split_ifs
    exact ⟨rfl, rfl⟩

/-- C8 amended witness: `SYNC` gets exactly one response, `QUIT` none, and
the undefined code `0xFF` none while the loop keeps running. -/
theorem responses_for_defined_transitions_witness :
    (∃ b, (loopIteration 2 [VANILLA_PIPE_CC_SYNC] 0).sent = [⟨2, b⟩]) ∧
    (loopIteration 2 [VANILLA_PIPE_CC_QUIT] 0).sent = [] ∧
    ((loopIteration 2 [255] 0).sent = [] ∧ (loopIteration 2 [255] 0).running = true) :=
  ⟨(responses_for_defined_transitions 2 [VANILLA_PIPE_CC_SYNC] 0 (by decide)).1
      (Or.inl (by decide)),
   (responses_for_defined_transitions 2 [VANILLA_PIPE_CC_QUIT] 0 (by decide)).2.1
      (Or.inr (by decide)),
   (responses_for_defined_transitions 2 [255] 0 (by decide)).2.2 (by decide)⟩

/-- C5: once an event sets the shutdown flag — which happens exactly for a
termination signal or a datagram dispatched to the `QUIT` arm — the loop
terminates after that iteration, consuming no later event; the process then
closes the transport socket, then cleans up the Wi-Fi capability, in that
order, and exits with code 0. -/
theorem shutdown_closes_socket_then_wifi (pre : List Event) (ev : Event)
    (post : List Event)
    (h : setsShutdown ev = true) :
    runLoop true (pre ++ ev :: post) = runLoop true (pre ++ [ev]) ∧
    (runLoop true (pre ++ [ev])).2 = false ∧
    runBroker (pre ++ ev :: post) =
      some ((runLoop true (pre ++ [ev])).1 ++
        [Action.closeSocket, Action.wifi WifiCall.wifi_cleanup], 0) ∧
    (∀ e : Event, setsShutdown e = true ↔
      ((∃ n, e = Event.sig n) ∨
       ∃ p d r, e = Event.datagram p d r ∧ d ≠ [] ∧
         d.headD 0 = VANILLA_PIPE_CC_QUIT)) := by
  have h2 := runLoop_shutdown_stops pre ev h
  have h1 : runLoop true (pre ++ ev :: post) = runLoop true (pre ++ [ev]) := by
    have hsplit : pre ++ ev :: post = (pre ++ [ev]) ++ post := by simp
    rw [hsplit, runLoop_stopped_append _ _ h2]
  refine ⟨h1, h2, ?_, ?_⟩
  · unfold runBroker
    rw [h1]
    rcases hr : runLoop true (pre ++ [ev]) with ⟨acts, b⟩
    rw [hr] at h2
    simp only at h2
    subst h2
    rfl
  · intro e
    rcases e with _ | n | ⟨p, d, r⟩
    · simp [setsShutdown, eventStep]
    · simp [setsShutdown, eventStep]
    · simp only [setsShutdown, eventStep, Bool.not_eq_true']
      rw [← Bool.not_eq_true, Bool.not_eq_true]
      rw [loopIteration_running_false_iff]
      constructor
      · rintro ⟨hd, hq⟩
        exact Or.inr ⟨p, d, r, rfl, hd, hq⟩
      · rintro (⟨n, hn⟩ | ⟨p1, d1, r1, heq, hd, hq⟩)
        · cases hn
        · cases heq
          exact ⟨hd, hq⟩

/-- C5 witness: a termination signal followed by a stale timeout event stops
the loop immediately; the socket is closed and the Wi-Fi capability cleaned
up, in that order, with exit code 0. -/
theorem shutdown_closes_socket_then_wifi_witness :
    runLoop true ([] ++ Event.sig 15 :: [Event.timeout]) =
      runLoop true ([] ++ [Event.sig 15]) ∧
    runBroker ([] ++ Event.sig 15 :: [Event.timeout]) =
      some ((runLoop true ([] ++ [Event.sig 15])).1 ++
        [Action.closeSocket, Action.wifi WifiCall.wifi_cleanup], 0) :=
  ⟨(shutdown_closes_socket_then_wifi [] (Event.sig 15) [Event.timeout] (by decide)).1,
   (shutdown_closes_socket_then_wifi [] (Event.sig 15) [Event.timeout] (by decide)).2.2.1⟩

/-- C7: the process exits 0 on a help request or on clean shutdown, and
exits non-zero with no arguments, with both or neither transport mode
selected, on Wi-Fi initialization failure, or on socket bind failure; on a
bind failure the already-initialized Wi-Fi capability is cleaned up before
the non-zero exit. -/
theorem exit_codes (args : List String) (wifiInitResult bindResult : Int)
    (events : List Event) :
    (args = [] →
      mainBroker args wifiInitResult bindResult events = MainResult.exited 1 []) ∧
    (("-h" ∈ args ∨ "--help" ∈ args) →
      mainBroker args wifiInitResult bindResult events = MainResult.exited 0 []) ∧
    ("-h" ∉ args → "--help" ∉ args → args ≠ [] →
      (("-udp" ∈ args) ↔ ("-local" ∈ args)) →
      mainBroker args wifiInitResult bindResult events = MainResult.exited 1 []) ∧
    ("-h" ∉ args → "--help" ∉ args →
      (("-udp" ∈ args) ↔ ¬("-local" ∈ args)) →
      wifiInitResult ≠ 0 →
      mainBroker args wifiInitResult bindResult events =
        MainResult.exited 1 [Action.wifi WifiCall.wifi_init]) ∧
    ("-h" ∉ args → "--help" ∉ args →
      (("-udp" ∈ args) ↔ ¬("-local" ∈ args)) →
      wifiInitResult = 0 → bindResult < 0 →
      mainBroker args wifiInitResult bindResult events =
        MainResult.exited 1
          [Action.wifi WifiCall.wifi_init, Action.wifi WifiCall.wifi_cleanup]) ∧
    ("-h" ∉ args → "--help" ∉ args →
      (("-udp" ∈ args) ↔ ¬("-local" ∈ args)) →
      wifiInitResult = 0 → ¬ bindResult < 0 → (runLoop true events).2 = false →
      mainBroker args wifiInitResult bindResult events =
        MainResult.exited 0 (Action.wifi WifiCall.wifi_init ::
          ((runLoop true events).1 ++
            [Action.closeSocket, Action.wifi WifiCall.wifi_cleanup]))) := by
  refine ⟨?_, ?_, ?_, ?_, ?_, ?_⟩
  · intro h
    subst h
    rfl
  · intro h
    have hne : args ≠ [] := by
      rintro rfl
      simp at h
    have hlen : ¬ args.length = 0 := by simpa [List.length_eq_zero] using hne
    unfold mainBroker
    rw [if_neg hlen, parseArgs_help args false false none h]
  · intro hh1 hh2 hne hiff
    have hlen : ¬ args.length = 0 := by simpa [List.length_eq_zero] using hne
    obtain ⟨w, hw⟩ := parseArgs_no_help args false false none hh1 hh2
    have hc : (decide ("-udp" ∈ args) : Bool) = decide ("-local" ∈ args) :=
      decide_eq_decide.mpr hiff
    unfold mainBroker
    rw [if_neg hlen, hw]
    simp only [Bool.false_or]
    rw [if_pos hc]
  · intro hh1 hh2 hiff hwifi
    have hne : args ≠ [] := by
      rintro rfl
      rcases hiff.mpr (by simp) with h
      simp at h
    have hlen : ¬ args.length = 0 := by simpa [List.length_eq_zero] using hne
    obtain ⟨w, hw⟩ := parseArgs_no_help args false false none hh1 hh2
    have hc : (decide ("-udp" ∈ args) : Bool) ≠ decide ("-local" ∈ args) := by
      by_cases hu : "-udp" ∈ args
      · simp [hu, hiff.mp hu]
      · have hl : "-local" ∈ args := by
          by_contra hnl
          exact hu (hiff.mpr hnl)
        simp [hu, hl]
    unfold mainBroker
    rw [if_neg hlen, hw]
    simp only [Bool.false_or]
    rw [if_neg hc, if_pos hwifi]
  · intro hh1 hh2 hiff hwifi hbind
    have hne : args ≠ [] := by
      rintro rfl
      rcases hiff.mpr (by simp) with h
      simp at h
    have hlen : ¬ args.length = 0 := by simpa [List.length_eq_zero] using hne
    obtain ⟨w, hw⟩ := parseArgs_no_help args false false none hh1 hh2
    have hc : (decide ("-udp" ∈ args) : Bool) ≠ decide ("-local" ∈ args) := by
      by_cases hu : "-udp" ∈ args
      · simp [hu, hiff.mp hu]
      · have hl : "-local" ∈ args := by
          by_contra hnl
          exact hu (hiff.mpr hnl)
        simp [hu, hl]
    have hwifi2 : ¬ wifiInitResult ≠ 0 := by simp [hwifi]
    unfold mainBroker
    rw [if_neg hlen, hw]
    simp only [Bool.false_or]
    rw [if_neg hc, if_neg hwifi2, if_pos hbind]
  · intro hh1 hh2 hiff hwifi hbind hstop
    have hne : args ≠ [] := by
      rintro rfl
      rcases hiff.mpr (by simp) with h
      simp at h
    have hlen : ¬ args.length = 0 := by simpa [List.length_eq_zero] using hne
    obtain ⟨w, hw⟩ := parseArgs_no_help args false false none hh1 hh2
    have hc : (decide ("-udp" ∈ args) : Bool) ≠ decide ("-local" ∈ args) := by
      by_cases hu : "-udp" ∈ args
      · simp [hu, hiff.mp hu]
      · have hl : "-local" ∈ args := by
          by_contra hnl
          exact hu (hiff.mpr hnl)
        simp [hu, hl]
    have hwifi2 : ¬ wifiInitResult ≠ 0 := by simp [hwifi]
    unfold mainBroker
    rw [if_neg hlen, hw]
    simp only [Bool.false_or]
    rw [if_neg hc, if_neg hwifi2, if_neg hbind]
    rcases hr : runLoop true events with ⟨acts, b⟩
    rw [hr] at hstop
    simp only at hstop
    subst hstop
    rfl

/-- C7 witness: concrete runs of `main` — help request exits 0; both modes
exit 1; Wi-Fi init failure exits 1; bind failure cleans up Wi-Fi and exits
1; a clean `QUIT`-triggered shutdown exits 0. -/
theorem exit_codes_witness :
    mainBroker [] 0 0 [] = MainResult.exited 1 [] ∧
    mainBroker ["-h"] 0 0 [] = MainResult.exited 0 [] ∧
    mainBroker ["-udp", "-local"] 0 0 [] = MainResult.exited 1 [] ∧
    mainBroker ["-udp"] 1 0 [] = MainResult.exited 1 [Action.wifi WifiCall.wifi_init] ∧
    mainBroker ["-udp"] 0 (-1) [] =
      MainResult.exited 1
        [Action.wifi WifiCall.wifi_init, Action.wifi WifiCall.wifi_cleanup] ∧
    mainBroker ["-local"] 0 0 [Event.datagram 9 [VANILLA_PIPE_CC_QUIT] 0] =
      MainResult.exited 0 (Action.wifi WifiCall.wifi_init ::
        ((runLoop true [Event.datagram 9 [VANILLA_PIPE_CC_QUIT] 0]).1 ++
          [Action.closeSocket, Action.wifi WifiCall.wifi_cleanup])) :=
  ⟨(exit_codes [] 0 0 []).1 rfl,
   (exit_codes ["-h"] 0 0 []).2.1 (Or.inl (by decide)),
   (exit_codes ["-udp", "-local"] 0 0 []).2.2.1 (by decide) (by decide) (by decide)
     (by constructor <;> intro <;> decide),
   (exit_codes ["-udp"] 1 0 []).2.2.2.1 (by decide) (by decide)
     (by constructor
         · intro _
           decide
         · intro _
           decide)
     (by decide),
   (exit_codes ["-udp"] 0 (-1) []).2.2.2.2.1 (by decide) (by decide)
     (by constructor
         · intro _
           decide
         · intro _
           decide)
     rfl (by decide),
   (exit_codes ["-local"] 0 0 [Event.datagram 9 [VANILLA_PIPE_CC_QUIT] 0]).2.2.2.2.2
     (by decide) (by decide)
     (by constructor
         · intro h
           exact absurd h (by decide)
         · intro h
           exact absurd (by decide) h)
     rfl (by decide) (by decide)⟩

end VanillaPipe
